import Mathlib

/-!
A shallow embedding of `src/audio_pipeline.py` (a configuration-driven audio
post-processing pipeline built on the external pydub library).

Modelling choices:
* A pydub `AudioSegment` is modelled as a list of integer samples.  Its
  duration is the sample count; Python truthiness of a segment
  (`AudioSegment.__len__` with no `__bool__`) is `duration ≠ 0`.
* The external codec/DSP primitives that pydub supplies (overlay, append,
  gain, resampling, fades, normalisation, repetition) are modelled as pure
  functions on the sample list.  Overlay, append, reverse and repetition are
  modelled exactly (time-aligned truncating sum, list append, list reverse,
  self-concatenation); the floating-point dB/resampling arithmetic inside
  gain, speed, fade and normalize is external-library territory and is
  represented by fixed integer/rational stand-ins — no claim below depends
  on that arithmetic, only on the pipeline's sequencing around it.
* The filesystem is a value: a list of existing folders plus a partial
  decode function from paths to segments (`none` models a per-file decode
  failure, which the Python code catches and logs).
* Python exceptions that escape a function are modelled with `Except`.
-/

/-- An in-memory decoded audio buffer (pydub `AudioSegment`): a sequence of
samples. -/
structure AudioSegment where
  data : List Int
deriving DecidableEq, Repr

/-- Duration of a buffer, in samples (the model's time unit). -/
def duration (a : AudioSegment) : Nat := a.data.length

/-- Python truthiness of an `AudioSegment`: pydub defines `__len__` (the
duration) and no `__bool__`, so a segment is falsy exactly when its duration
is zero. -/
def segTruthy (a : AudioSegment) : Bool := duration a != 0

/-- Python truthiness of an optional segment: `None` is falsy, a segment is
as truthy as its duration. -/
def optTruthy : Option AudioSegment → Bool
  | none => false
  | some a => segTruthy a

/-- Models pydub `overlay` at position 0 (external library): the second
signal is summed sample-wise onto the first; the result always has the
first argument's length (the overlaid signal is truncated, and a shorter
overlay leaves the tail unchanged). -/
def overlayData : List Int → List Int → List Int
  | [], _ => []
  | x :: xs, [] => x :: xs
  | x :: xs, y :: ys => (x + y) :: overlayData xs ys

/-- pydub `a.overlay(b)` on buffers. -/
def overlaySeg (a b : AudioSegment) : AudioSegment := ⟨overlayData a.data b.data⟩

/-- pydub `a + b` on two segments (external library): sequential append. -/
def concatSeg (a b : AudioSegment) : AudioSegment := ⟨a.data ++ b.data⟩

/-- pydub `a * times` with an integer argument (external library): the raw
data repeated `times` times; a non-positive count yields empty data, as
Python sequence repetition does. -/
def segMul (a : AudioSegment) (times : Int) : AudioSegment :=
  ⟨(List.replicate times.toNat a.data).flatten⟩

/-- Models pydub `apply_gain` / `a + gain` with a numeric gain (external
library): a fixed pure per-sample transformation parameterised by the dB
gain; the dB-to-linear floating-point arithmetic is not modelled. -/
def applyGain (a : AudioSegment) (gain : Int) : AudioSegment :=
  ⟨a.data.map (· + gain)⟩

/-- Models the pydub resampling pair `_spawn` with a frame-rate override
followed by `set_frame_rate` back to the original (external library): a
naive speed change that rescales the duration by `1/factor`, here by
nearest-neighbour sample selection; non-positive factors are left as a
no-op stand-in. -/
def speedData (d : List Int) (factor : Rat) : List Int :=
  if factor ≤ 0 then d
  else
    let newLen := (((d.length : Int) : Rat) / factor).floor.toNat
    (List.range newLen).map fun i => d.getD (((i : Int) : Rat) * factor).floor.toNat 0

/-- Models pydub `fade_in` (external library): a linear ramp over the first
`ms` samples of the buffer (integer arithmetic stand-in for the float
envelope). -/
def fadeInData (d : List Int) (ms : Int) : List Int :=
  let n := min ms.toNat d.length
  d.enum.map fun p => if p.1 < n then p.2 * (p.1 : Int) / (n : Int) else p.2

/-- Models pydub `fade_out` (external library): the mirrored linear ramp at
the end of the buffer. -/
def fadeOutData (d : List Int) (ms : Int) : List Int :=
  (fadeInData d.reverse ms).reverse

/-- Models pydub `effects.normalize` (external library): scales the peak
sample magnitude towards full scale, reduced by a stand-in for the
`headroom` dB margin; silent buffers are returned unchanged. -/
def normalizeData (d : List Int) (headroom : Rat) : List Int :=
  let peak := d.foldl (fun m x => max m x.natAbs) 0
  if peak = 0 then d
  else
    let target : Int := max 0 (32767 - (headroom * 100).floor)
    d.map fun x => x * target / (peak : Int)

/-- An effect specification: the Python config dict `{type, ...params}`,
with each parameter optional exactly as `dict.get` with a default reads it
(`type` itself may be missing, in which case `effect.get('type')` is
`None`). -/
structure Effect where
  type : Option String
  gain : Option Int
  factor : Option Rat
  fade_in : Option Int
  fade_out : Option Int
  headroom : Option Rat
  times : Option Int
deriving DecidableEq, Repr

/-- An effect spec carrying only a `type` tag, every parameter left to its
default. -/
def typeOnly (t : Option String) : Effect := ⟨t, none, none, none, none, none, none⟩

/-- `AudioPipeline.apply_volume_effect`: `gain = params.get('gain', 0);
return audio + gain`. -/
def apply_volume_effect (audio : AudioSegment) (params : Effect) : AudioSegment :=
  let gain := params.gain.getD 0
  applyGain audio gain

/-- `AudioPipeline.apply_speed_effect`: `factor = params.get('factor', 1.0)`,
then the frame-rate override/restore pair. -/
def apply_speed_effect (audio : AudioSegment) (params : Effect) : AudioSegment :=
  let factor := params.factor.getD 1
  ⟨speedData audio.data factor⟩

/-- `AudioPipeline.apply_fade_effect`: `fade_in`/`fade_out` default 0, each
ramp applied only when its parameter is `> 0`. -/
def apply_fade_effect (audio : AudioSegment) (params : Effect) : AudioSegment :=
  let fadeInMs := params.fade_in.getD 0
  let fadeOutMs := params.fade_out.getD 0
  let result := audio
  let result := if fadeInMs > 0 then (⟨fadeInData result.data fadeInMs⟩ : AudioSegment) else result
  let result := if fadeOutMs > 0 then (⟨fadeOutData result.data fadeOutMs⟩ : AudioSegment) else result
  result

/-- `AudioPipeline.apply_reverse_effect`: `audio.reverse()` time-reverses
the sample sequence. -/
def apply_reverse_effect (audio : AudioSegment) (_params : Effect) : AudioSegment :=
  ⟨audio.data.reverse⟩

/-- `AudioPipeline.apply_normalize_effect`: `headroom = params.get('headroom',
0.1); return normalize(audio, headroom)`. -/
def apply_normalize_effect (audio : AudioSegment) (params : Effect) : AudioSegment :=
  let headroom := params.headroom.getD (1 / 10)
  ⟨normalizeData audio.data headroom⟩

/-- `AudioPipeline.apply_repeat_effect`: `times = params.get('times', 1);
return audio * times`. -/
def apply_repeat_effect (audio : AudioSegment) (params : Effect) : AudioSegment :=
  let times := params.times.getD 1
  segMul audio times

/-- The dispatch dictionary `effect_functions` of `apply_effects`
(lines 259-266): effect-type name to handler. -/
def effect_functions : List (String × (AudioSegment → Effect → AudioSegment)) :=
  [("volume", apply_volume_effect),
   ("speed", apply_speed_effect),
   ("fade", apply_fade_effect),
   ("reverse", apply_reverse_effect),
   ("normalize", apply_normalize_effect),
   ("repeat", apply_repeat_effect)]

/-- One iteration of the loop in `apply_effects` (lines 268-274):
`effect_type = effect.get('type')`; if it is a key of `effect_functions`
the handler transforms the running result, otherwise the step is skipped
with a warning (a missing `type` is `None`, never a key). -/
def applyOneEffect (result : AudioSegment) (effect : Effect) : AudioSegment :=
  match effect.type with
  | some t =>
    match effect_functions.lookup t with
    | some f => f result effect
    | none => result
  | none => result

/-- The `for effect in effects:` loop of `apply_effects`, threading the
running `result`. -/
def runEffectLoop (result : AudioSegment) : List Effect → AudioSegment
  | [] => result
  | e :: rest => runEffectLoop (applyOneEffect result e) rest

/-- The Configuration: the YAML mapping as Python reads it through
`config.get(key, default)` — a key is either absent (`none`, so the default
applies) or present with a well-typed value. -/
structure Config where
  input_folder : Option String
  output_folder : Option String
  output_name : Option String
  output_formats : Option (List String)
  mix_files : Option (List String)
  concatenate_files : Option (List String)
  audio_files : Option (List String)
  combine_method : Option String
  final_combine_method : Option String
  effects : Option (List Effect)
deriving DecidableEq, Repr

/-- A configuration with every key absent, so every `get` default applies. -/
def emptyConfig : Config :=
  ⟨none, none, none, none, none, none, none, none, none, none⟩

/-- `AudioPipeline.apply_effects`: reads `effects` from the configuration
(default `[]`) and runs the effect loop over the input buffer. -/
def apply_effects (config : Config) (audio : AudioSegment) : AudioSegment :=
  let effects := config.effects.getD []
  runEffectLoop audio effects

/-- The Python exceptions that can escape a pipeline stage. -/
inductive PyError where
  /-- `FileNotFoundError` from `open` on a missing configuration file. -/
  | configNotFound
  /-- `yaml.YAMLError` from parsing a malformed configuration file. -/
  | yamlError
  /-- `FileNotFoundError` raised by `load_audio_files` when `input_folder`
  does not exist. -/
  | inputFolderMissing
  /-- `AttributeError` from calling `.get` on a `None` configuration. -/
  | attributeError
deriving DecidableEq, Repr

/-- The filesystem as the pipeline observes it: which folders exist, and
which file paths decode to which audio buffer (`none` models a per-file
decode failure, caught and logged by the loader). -/
structure FileSystem where
  folders : List String
  decode : String → Option AudioSegment

/-- `os.path.join` for the plain relative names the pipeline builds. -/
def pathJoin (folder file : String) : String := folder ++ "/" ++ file

/-- One loader `for` loop (lines 69-76, 80-87, 92-99): each file of the
list is resolved against the input folder and decoded; a decode failure is
caught and the file simply omitted from the collection. -/
def decodeList (fs : FileSystem) (folder : String) (files : List String) : List AudioSegment :=
  files.filterMap fun f => fs.decode (pathJoin folder f)

/-- The paths a loader loop hands to the decoder, in order. -/
def attemptPaths (folder : String) (files : List String) : List String :=
  files.map (pathJoin folder)

/-- What `load_audio_files` leaves on the pipeline object: the three
segment collections, plus (for observability of which files were consulted)
every path passed to the decoder, in program order. -/
structure LoadResult where
  mix_segments : List AudioSegment
  concatenate_segments : List AudioSegment
  audio_segments : List AudioSegment
  attempted : List String
deriving DecidableEq, Repr

/-- `AudioPipeline.load_audio_files` (lines 56-99): resolve `input_folder`
(default `input_audio`), raise `FileNotFoundError` if it does not exist,
then fill `mix_segments` from `mix_files`, `concatenate_segments` from
`concatenate_files`, and — only `if audio_files and not mix_files and not
concatenate_files` — `audio_segments` from the legacy `audio_files` list. -/
def load_audio_files (fs : FileSystem) (config : Config) : Except PyError LoadResult :=
  let input_folder := config.input_folder.getD "input_audio"
  if fs.folders.contains input_folder then
    let mix_files := config.mix_files.getD []
    let concatenate_files := config.concatenate_files.getD []
    let audio_files := config.audio_files.getD []
    let legacyConsulted :=
      !audio_files.isEmpty && mix_files.isEmpty && concatenate_files.isEmpty
    .ok
    { mix_segments := decodeList fs input_folder mix_files
      concatenate_segments := decodeList fs input_folder concatenate_files
      audio_segments :=
        if legacyConsulted then decodeList fs input_folder audio_files else []
      attempted :=
        attemptPaths input_folder mix_files ++
        attemptPaths input_folder concatenate_files ++
        (if legacyConsulted then attemptPaths input_folder audio_files else []) }
  else
    .error .inputFolderMissing

/-- `AudioPipeline.mix_audio_files` (lines 204-224), and equally the inline
mixing loop of `run` (lines 326-330): `None` on an empty collection,
otherwise the first buffer with every later buffer overlaid onto the
running result. -/
def mix_audio_files : List AudioSegment → Option AudioSegment
  | [] => none
  | s :: rest => some (rest.foldl overlaySeg s)

/-- `AudioPipeline.concatenate_audio_files` (lines 226-243), and equally
the inline concatenation loop of `run` (lines 333-337): `None` on an empty
collection, otherwise the left fold of `+` over the buffers. -/
def concatenate_audio_files : List AudioSegment → Option AudioSegment
  | [] => none
  | s :: rest => some (rest.foldl concatSeg s)

/-- Lines 340-350 of `run`: `if mixed_audio and concatenated_audio:`
combine by the configured `final_combine_method` (`overlay` overlays, any
other value appends); `elif mixed_audio:` / `elif concatenated_audio:` take
the single truthy result; otherwise `self.result` stays `None`.  All three
guards are Python truthiness, so a zero-duration segment counts as absent. -/
def dualCombine (finalMethod : String) :
    Option AudioSegment → Option AudioSegment → Option AudioSegment
  | some m, some c =>
    if segTruthy m && segTruthy c then
      if finalMethod = "overlay" then some (overlaySeg m c) else some (concatSeg m c)
    else if segTruthy m then some m
    else if segTruthy c then some c
    else none
  | some m, none => if segTruthy m then some m else none
  | none, some c => if segTruthy c then some c else none
  | none, none => none

/-- `AudioPipeline.save_audio` (lines 277-306), projected to the output
paths it writes: one file `{output_folder}/{output_name}.{format}` per
configured format (encoding parameters and per-format encode failures do
not change which paths are attempted and are not modelled). -/
def save_audio (config : Config) (output_name : String) : List String :=
  let output_folder := config.output_folder.getD "output_audio"
  let output_formats := config.output_formats.getD ["mp3", "wav"]
  output_formats.map fun fmt => pathJoin output_folder (output_name ++ "." ++ fmt)

/-- The observable outcome of a `run` that returned normally. -/
structure RunResult where
  /-- `self.result` when `run` returns. -/
  result : Option AudioSegment
  /-- the output paths written by step 5. -/
  written : List String
  /-- whether `run` took the `Aucun fichier audio chargé` early return. -/
  nothingLoaded : Bool
deriving DecidableEq, Repr

/-- Steps 4 and 5 of `run` (lines 363-370): `if self.result:` apply the
effect chain, then `if self.result:` (re-checked) save it under
`output_name` (default `result`); both checks are Python truthiness. -/
def finishRun (config : Config) (r : Option AudioSegment) : RunResult :=
  let r := if optTruthy r then r.map (apply_effects config) else r
  let written :=
    if optTruthy r then save_audio config (config.output_name.getD "result") else []
  ⟨r, written, false⟩

/-- `AudioPipeline.run` (lines 308-374).  Load the files; if either
new-style collection is non-empty, mix and concatenate them and combine the
two results (lines 320-350); `elif self.audio_segments:` take the legacy
path with `combine_method` (lines 353-358); otherwise log an error and
return (lines 359-361, no exception).  Then apply effects and save. -/
def run (fs : FileSystem) (config : Config) : Except PyError RunResult :=
  match load_audio_files fs config with
  | .error e => .error e
  | .ok L =>
    if !L.mix_segments.isEmpty || !L.concatenate_segments.isEmpty then
      let mixed_audio := mix_audio_files L.mix_segments
      let concatenated_audio := concatenate_audio_files L.concatenate_segments
      let final_combine := config.final_combine_method.getD "concatenate"
      .ok (finishRun config (dualCombine final_combine mixed_audio concatenated_audio))
    else if !L.audio_segments.isEmpty then
      let combine_method := config.combine_method.getD "concatenate"
      let r := if combine_method = "mix" then mix_audio_files L.audio_segments
               else concatenate_audio_files L.audio_segments
      .ok (finishRun config r)
    else
      .ok ⟨none, [], true⟩

/-- What a configuration file can hold: absent, malformed YAML, or a parsed
document — where `yaml.safe_load` of an empty document is Python `None`
rather than a mapping. -/
inductive YamlFile where
  | missing
  | malformed
  | parsed (doc : Option Config)

/-- `AudioPipeline.load_config` (lines 34-54): returns whatever
`yaml.safe_load` produced; `FileNotFoundError` and `yaml.YAMLError` are
logged and re-raised. -/
def load_config : YamlFile → Except PyError (Option Config)
  | .missing => .error .configNotFound
  | .malformed => .error .yamlError
  | .parsed doc => .ok doc

/-- `run` as invoked on a pipeline whose `self.config` is whatever
`load_config` returned: when the configuration is Python `None`, the first
key access — `self.config.get('input_folder', ...)` at line 61 — raises
`AttributeError`, which nothing in `run` catches. -/
def runWithConfig (fs : FileSystem) : Option Config → Except PyError RunResult
  | none => .error .attributeError
  | some config => run fs config

/-- `main` (lines 377-394): build the pipeline (loading the configuration)
and run it; any exception is logged as `Erreur fatale` and re-raised. -/
def mainRun (fs : FileSystem) (file : YamlFile) : Except PyError RunResult :=
  match load_config file with
  | .error e => .error e
  | .ok config => runWithConfig fs config

/-- The process exit status `main` produces: a re-raised exception ends the
interpreter with a non-zero status, a normal return exits zero. -/
def exitCode : Except PyError RunResult → Nat
  | .error _ => 1
  | .ok _ => 0

/-- The output files written by a whole run: none at all when an exception
escaped. -/
def writtenFiles : Except PyError RunResult → List String
  | .error _ => []
  | .ok r => r.written

/-! ### Shared helper lemmas and concrete fixtures -/

theorem runEffectLoop_eq_foldl (l : List Effect) (a : AudioSegment) :
    runEffectLoop a l = l.foldl applyOneEffect a := by
  induction l generalizing a with
  | nil => rfl
  | cons e rest ih => simp [runEffectLoop, List.foldl, ih]

theorem duration_concatSeg (a b : AudioSegment) :
    duration (concatSeg a b) = duration a + duration b := by
  simp [duration, concatSeg]

theorem foldl_concatSeg_duration (rest : List AudioSegment) (s : AudioSegment) :
    duration (rest.foldl concatSeg s) = duration s + (rest.map duration).sum := by
  induction rest generalizing s with
  | nil => simp
  | cons b bs ih => simp [List.foldl, ih, duration_concatSeg]; omega

/-- A filesystem where the default input folder exists but no file decodes. -/
def fsNothing : FileSystem := ⟨["input_audio"], fun _ => none⟩

/-- A filesystem where `a.wav` decodes to a zero-duration buffer and `b.wav`
to a one-sample buffer. -/
def fsDual : FileSystem :=
  ⟨["input_audio"], fun p =>
    if p = "input_audio/a.wav" then some ⟨[]⟩
    else if p = "input_audio/b.wav" then some ⟨[2]⟩
    else none⟩

/-- A configuration mixing `a.wav`, concatenating `b.wav`, combining the two
results by `overlay`. -/
def cfgDual : Config :=
  { emptyConfig with
      mix_files := some ["a.wav"]
      concatenate_files := some ["b.wav"]
      final_combine_method := some "overlay" }

/-- The load result of `fsDual`/`cfgDual`. -/
def loadedDual : LoadResult :=
  ⟨[⟨[]⟩], [⟨[2]⟩], [], ["input_audio/a.wav", "input_audio/b.wav"]⟩

/-! ### C1 -/

/-- C1 counterexample: with the default input folder present and every file
list empty, `run` takes the nothing-loaded abort (logged error, no result,
no output written), yet `main` returns normally and the process outcome is
zero — refuting the claim that the abort is reported as an error to the
caller with a non-zero outcome. -/
theorem C1_counterexample :
    run fsNothing emptyConfig = .ok ⟨none, [], true⟩ ∧
    exitCode (mainRun fsNothing (.parsed (some emptyConfig))) = 0 :=
  ⟨rfl, rfl⟩

/-- C1 (amended): if no audio buffers were loaded under any pathway, the run
aborts with a logged error and writes no output file, but `run` returns
normally rather than raising, so the caller observes a success (zero)
process outcome. -/
theorem C1_nothing_loaded (fs : FileSystem) (config : Config) (L : LoadResult)
    (hok : load_audio_files fs config = .ok L)
    (hmix : L.mix_segments = []) (hcat : L.concatenate_segments = [])
    (hleg : L.audio_segments = []) :
    run fs config = .ok ⟨none, [], true⟩ ∧
    exitCode (mainRun fs (.parsed (some config))) = 0 := by
  have hrun : run fs config = .ok ⟨none, [], true⟩ := by
    simp [run, hok, hmix, hcat, hleg]
  refine ⟨hrun, ?_⟩
  show exitCode (run fs config) = 0
  rw [hrun]
  rfl

theorem C1_nothing_loaded_witness :
    run fsNothing emptyConfig = .ok ⟨none, [], true⟩ ∧
    exitCode (mainRun fsNothing (.parsed (some emptyConfig))) = 0 :=
  C1_nothing_loaded fsNothing emptyConfig ⟨[], [], [], []⟩ rfl rfl rfl rfl

/-! ### C2 -/

/-- C2 counterexample: both the mix list and the concatenate list produced a
result buffer (`some ⟨[]⟩` and `some ⟨[2]⟩`) and `final_combine_method` is
`overlay`, yet the pipeline result is the concatenated buffer alone, not
the overlay of the two: the `if mixed_audio and concatenated_audio:` guard
is Python truthiness, and the zero-duration mixed result is falsy. -/
theorem C2_counterexample :
    mix_audio_files loadedDual.mix_segments = some ⟨[]⟩ ∧
    concatenate_audio_files loadedDual.concatenate_segments = some ⟨[2]⟩ ∧
    load_audio_files fsDual cfgDual = .ok loadedDual ∧
    run fsDual cfgDual =
      .ok ⟨some ⟨[2]⟩, ["output_audio/result.mp3", "output_audio/result.wav"], false⟩ ∧
    (some (⟨[2]⟩ : AudioSegment)) ≠ some (overlaySeg ⟨[]⟩ ⟨[2]⟩) :=
  ⟨rfl, rfl, rfl, rfl, by decide⟩

/-- C2 (amended): when both the mix list and the concatenate list produced a
result buffer and both buffers have nonzero duration, the pipeline result
is one final combine of the two — overlay for `final_combine_method =
"overlay"`, otherwise the mixed result followed by the concatenated one;
when only one of the two results exists, that one becomes the pipeline
result directly provided its duration is nonzero (the truthiness guards
treat a zero-duration buffer as absent). -/
theorem C2_dual_combine (method : String) (m c : AudioSegment)
    (hm : segTruthy m = true) (hc : segTruthy c = true) :
    dualCombine method (some m) (some c) =
      some (if method = "overlay" then overlaySeg m c else concatSeg m c) ∧
    dualCombine method (some m) none = some m ∧
    dualCombine method none (some c) = some c := by
  refine ⟨?_, ?_, ?_⟩
  · by_cases hMethod : method = "overlay" <;> simp [dualCombine, hm, hc, hMethod]
  · simp [dualCombine, hm]
  · simp [dualCombine, hc]

theorem C2_dual_combine_witness :
    dualCombine "overlay" (some ⟨[1]⟩) (some ⟨[2]⟩) =
      some (if "overlay" = "overlay" then overlaySeg ⟨[1]⟩ ⟨[2]⟩ else concatSeg ⟨[1]⟩ ⟨[2]⟩) ∧
    dualCombine "overlay" (some ⟨[1]⟩) none = some ⟨[1]⟩ ∧
    dualCombine "overlay" none (some ⟨[2]⟩) = some ⟨[2]⟩ :=
  C2_dual_combine "overlay" ⟨[1]⟩ ⟨[2]⟩ rfl rfl

/-! ### C3 -/

/-- C3: the legacy `audio_files` list is consulted (its paths handed to the
decoder, its decodes collected into `audio_segments`) exactly when it is
non-empty and both `mix_files` and `concatenate_files` are empty; whenever
either new-style list is populated, the decoder only ever sees the
new-style paths and the legacy collection stays empty. -/
theorem C3_legacy_gate (fs : FileSystem) (config : Config) (L : LoadResult)
    (hok : load_audio_files fs config = .ok L) :
    (config.mix_files.getD [] ≠ [] ∨ config.concatenate_files.getD [] ≠ [] →
      L.audio_segments = [] ∧
      L.attempted =
        attemptPaths (config.input_folder.getD "input_audio") (config.mix_files.getD []) ++
        attemptPaths (config.input_folder.getD "input_audio") (config.concatenate_files.getD [])) ∧
    (config.audio_files.getD [] ≠ [] ∧ config.mix_files.getD [] = [] ∧
        config.concatenate_files.getD [] = [] →
      L.audio_segments =
        decodeList fs (config.input_folder.getD "input_audio") (config.audio_files.getD []) ∧
      L.attempted =
        attemptPaths (config.input_folder.getD "input_audio") (config.mix_files.getD []) ++
        attemptPaths (config.input_folder.getD "input_audio") (config.concatenate_files.getD []) ++
        attemptPaths (config.input_folder.getD "input_audio") (config.audio_files.getD [])) := by
  unfold load_audio_files at hok
  by_cases hf : fs.folders.contains (config.input_folder.getD "input_audio")
  · rw [if_pos hf] at hok
    obtain rfl : _ = L := by injection hok
    constructor
    · intro h
      have hcond :
          (!(config.audio_files.getD []).isEmpty && (config.mix_files.getD []).isEmpty &&
            (config.concatenate_files.getD []).isEmpty) = false := by
        rcases h with h | h <;> simp [List.isEmpty_iff, h]
      simp [hcond]
    · intro ⟨ha, hmix, hcat⟩
      have hcond :
          (!(config.audio_files.getD []).isEmpty && (config.mix_files.getD []).isEmpty &&
            (config.concatenate_files.getD []).isEmpty) = true := by
        simp [List.isEmpty_iff, ha, hmix, hcat]
      simp [hcond]
  · rw [if_neg hf] at hok
    exact absurd hok (by simp)

theorem C3_legacy_gate_witness :
    (cfgDual.mix_files.getD [] ≠ [] ∨ cfgDual.concatenate_files.getD [] ≠ [] →
      loadedDual.audio_segments = [] ∧
      loadedDual.attempted =
        attemptPaths (cfgDual.input_folder.getD "input_audio") (cfgDual.mix_files.getD []) ++
        attemptPaths (cfgDual.input_folder.getD "input_audio") (cfgDual.concatenate_files.getD [])) ∧
    (cfgDual.audio_files.getD [] ≠ [] ∧ cfgDual.mix_files.getD [] = [] ∧
        cfgDual.concatenate_files.getD [] = [] →
      loadedDual.audio_segments =
        decodeList fsDual (cfgDual.input_folder.getD "input_audio") (cfgDual.audio_files.getD []) ∧
      loadedDual.attempted =
        attemptPaths (cfgDual.input_folder.getD "input_audio") (cfgDual.mix_files.getD []) ++
        attemptPaths (cfgDual.input_folder.getD "input_audio") (cfgDual.concatenate_files.getD []) ++
        attemptPaths (cfgDual.input_folder.getD "input_audio") (cfgDual.audio_files.getD [])) :=
  C3_legacy_gate fsDual cfgDual loadedDual rfl

/-! ### C4 -/

/-- C4: the effect chain executor is the left fold of the per-effect step
over the configured effect list — each step's output feeds the next, in
list order — and on an empty effect list the input buffer is returned
unchanged. -/
theorem C4_effects_fold (config : Config) (audio : AudioSegment) :
    apply_effects config audio = (config.effects.getD []).foldl applyOneEffect audio ∧
    (config.effects.getD [] = [] → apply_effects config audio = audio) := by
  have h : apply_effects config audio = (config.effects.getD []).foldl applyOneEffect audio :=
    runEffectLoop_eq_foldl _ _
  exact ⟨h, fun he => by rw [h, he]; rfl⟩

theorem C4_effects_fold_witness :
    apply_effects emptyConfig ⟨[7]⟩ = ((emptyConfig.effects.getD []).foldl applyOneEffect ⟨[7]⟩) ∧
    (emptyConfig.effects.getD [] = [] → apply_effects emptyConfig ⟨[7]⟩ = ⟨[7]⟩) :=
  C4_effects_fold emptyConfig ⟨[7]⟩

/-! ### C5 -/

/-- C5: an effect specification whose `type` is not a key of the dispatch
dictionary (the six known kinds) is skipped — the step returns its input
buffer bit-identical, and the chain continues on the remaining effects with
that same buffer; the step is total, so the run does not fail. -/
theorem C5_unknown_effect_skipped (audio : AudioSegment) (effect : Effect)
    (rest : List Effect)
    (h : effect.type.bind (fun t => effect_functions.lookup t) = none) :
    applyOneEffect audio effect = audio ∧
    runEffectLoop audio (effect :: rest) = runEffectLoop audio rest := by
  have h1 : applyOneEffect audio effect = audio := by
    cases ht : effect.type with
    | none => simp [applyOneEffect, ht]
    | some t =>
      rw [ht] at h
      simp only [Option.some_bind] at h
      simp [applyOneEffect, ht, h]
  exact ⟨h1, by rw [runEffectLoop, h1]⟩

theorem C5_unknown_effect_skipped_witness :
    applyOneEffect ⟨[1, 2, 3]⟩ (typeOnly (some "echo")) = ⟨[1, 2, 3]⟩ ∧
    runEffectLoop ⟨[1, 2, 3]⟩ (typeOnly (some "echo") :: [typeOnly (some "reverse")]) =
      runEffectLoop ⟨[1, 2, 3]⟩ [typeOnly (some "reverse")] :=
  C5_unknown_effect_skipped ⟨[1, 2, 3]⟩ (typeOnly (some "echo")) [typeOnly (some "reverse")] rfl

/-! ### C6 -/

/-- C6: when the configured `input_folder` does not exist on the
filesystem, loading raises the fatal `FileNotFoundError`, `run` ends with
that exception before reaching the export step — so no output file is
written — and the process outcome is non-zero. -/
theorem C6_missing_input_folder (fs : FileSystem) (config : Config)
    (h : fs.folders.contains (config.input_folder.getD "input_audio") = false) :
    load_audio_files fs config = .error .inputFolderMissing ∧
    run fs config = .error .inputFolderMissing ∧
    writtenFiles (run fs config) = [] ∧
    exitCode (mainRun fs (.parsed (some config))) = 1 := by
  have hl : load_audio_files fs config = .error .inputFolderMissing := by
    have hmem : config.input_folder.getD "input_audio" ∉ fs.folders := by
      simpa using h
    simp [load_audio_files, hmem]
  have hr : run fs config = .error .inputFolderMissing := by
    simp [run, hl]
  refine ⟨hl, hr, by rw [hr]; rfl, ?_⟩
  show exitCode (run fs config) = 1
  rw [hr]
  rfl

theorem C6_missing_input_folder_witness :
    load_audio_files ⟨[], fun _ => none⟩ emptyConfig = .error .inputFolderMissing ∧
    run ⟨[], fun _ => none⟩ emptyConfig = .error .inputFolderMissing ∧
    writtenFiles (run ⟨[], fun _ => none⟩ emptyConfig) = [] ∧
    exitCode (mainRun ⟨[], fun _ => none⟩ (.parsed (some emptyConfig))) = 1 :=
  C6_missing_input_folder ⟨[], fun _ => none⟩ emptyConfig rfl

/-! ### C7 -/

/-- C7: for every non-empty sequence of buffers, the duration of the
concatenated result is the sum of the durations of the inputs. -/
theorem C7_concat_duration_sum (l : List AudioSegment) (h : l ≠ []) :
    (concatenate_audio_files l).map duration = some ((l.map duration).sum) := by
  match l with
  | s :: rest => simp [concatenate_audio_files, foldl_concatSeg_duration]

theorem C7_concat_duration_sum_witness :
    (concatenate_audio_files [⟨[1]⟩, ⟨[2, 3]⟩]).map duration =
      some (([(⟨[1]⟩ : AudioSegment), ⟨[2, 3]⟩].map duration).sum) :=
  C7_concat_duration_sum [⟨[1]⟩, ⟨[2, 3]⟩] (by decide)

/-! ### C8 -/

/-- C8: the repeat effect with `times = 1` (whether given explicitly or by
the parameter default) is the identity transformation on the buffer. -/
theorem C8_repeat_identity (audio : AudioSegment) (params : Effect)
    (h : params.times.getD 1 = 1) :
    apply_repeat_effect audio params = audio := by
  unfold apply_repeat_effect segMul
  rw [h]
  cases audio
  simp

theorem C8_repeat_identity_witness :
    apply_repeat_effect ⟨[1, 2]⟩ { typeOnly (some "repeat") with times := some 1 } = ⟨[1, 2]⟩ :=
  C8_repeat_identity ⟨[1, 2]⟩ { typeOnly (some "repeat") with times := some 1 } rfl

/-! ### C9 -/

/-- C9: a zero-duration buffer is falsy to the truthiness guards of `run`:
the both-results-exist branch of the dual combine is not taken when the
mixed result has zero duration (the result is the concatenated buffer when
that one is truthy, else `None`); and when `self.result` is falsy after
combination, no effects are applied to it, no output path is written, and
`run` still returns normally (`.ok`, not an exception). -/
theorem C9_zero_duration_falsy (method : String) (m c : AudioSegment)
    (hm : segTruthy m = false)
    (config : Config) (r : Option AudioSegment) (hr : optTruthy r = false)
    (fs : FileSystem) (L : LoadResult)
    (hok : load_audio_files fs config = .ok L)
    (hne : L.mix_segments ≠ [] ∨ L.concatenate_segments ≠ []) :
    dualCombine method (some m) (some c) = (if segTruthy c then some c else none) ∧
    finishRun config r = ⟨r, [], false⟩ ∧
    run fs config =
      .ok (finishRun config
        (dualCombine (config.final_combine_method.getD "concatenate")
          (mix_audio_files L.mix_segments)
          (concatenate_audio_files L.concatenate_segments))) := by
  refine ⟨by simp [dualCombine, hm], by simp [finishRun, hr], ?_⟩
  have hb : (!L.mix_segments.isEmpty || !L.concatenate_segments.isEmpty) = true := by
    rcases hne with h | h <;> simp [h]
  simp [run, hok, hb]

theorem C9_zero_duration_falsy_witness :
    dualCombine "overlay" (some ⟨[]⟩) (some ⟨[2]⟩) =
      (if segTruthy ⟨[2]⟩ then some ⟨[2]⟩ else none) ∧
    finishRun cfgDual (some ⟨[]⟩) = ⟨some ⟨[]⟩, [], false⟩ ∧
    run fsDual cfgDual =
      .ok (finishRun cfgDual
        (dualCombine (cfgDual.final_combine_method.getD "concatenate")
          (mix_audio_files loadedDual.mix_segments)
          (concatenate_audio_files loadedDual.concatenate_segments))) :=
  C9_zero_duration_falsy "overlay" ⟨[]⟩ ⟨[2]⟩ rfl cfgDual (some ⟨[]⟩) rfl fsDual loadedDual
    rfl (Or.inl (by decide))

/-! ### C10 -/

/-- C10: a configuration file that exists and parses to an empty YAML
document makes `load_config` return Python `None` without raising either
`FileNotFoundError` or `yaml.YAMLError`; a later `run` over that `None`
configuration dies with an `AttributeError` at its first configuration-key
access, which nothing catches, so the process outcome is non-zero. -/
theorem C10_empty_config_doc (fs : FileSystem) :
    load_config (.parsed none) = .ok none ∧
    runWithConfig fs none = .error .attributeError ∧
    mainRun fs (.parsed none) = .error .attributeError ∧
    exitCode (mainRun fs (.parsed none)) = 1 :=
  ⟨rfl, rfl, rfl, rfl⟩
